import Mathlib

/-!
Verification development for the `uni-stg` provider-agnostic object-storage
client (Rust sources `src/lib.rs`, `src/aws_s3.rs`, `src/google_cloud.rs`).

The Rust code is shallowly embedded: adapter functions become pure Lean
functions over an explicit model of the remote provider state; the async
network calls of the provider SDKs are replaced by calls into executable
service models (documented where they model external collaborators);
machine-integer casts (`u32 as i32`, `i64 as u64`) are made explicit on
`Nat`/`Int`; Rust `Result`/`?` becomes `Except`, and Rust panics
(`unwrap`, `assert_eq!`) are made visible through a dedicated outcome type.
-/

namespace UniStg

/-- Bytes are modelled as natural numbers (the value range is irrelevant to
the properties proved here). -/
abbrev Byte := Nat

/-- The empty string, named so that it can be passed as an argument. -/
def emptyString : String := ""

/-- Outcome of a method that may panic (Rust `unwrap` on `None`), used for
accessor methods such as `AWSObjectPut::size`. -/
inductive PanicOr (α : Type) where
  | ok : α → PanicOr α
  | panicked : String → PanicOr α
deriving DecidableEq, Repr

/-- Message of a Rust `Option::unwrap` panic on `None` (modelled text). -/
def unwrapNoneMsg : String := "called Option::unwrap() on a None value"

end UniStg

namespace UniStg

/-- One item of a Google Cloud Storage service error response
(`google_cloud_storage::http::error::ErrorResponseItem`, fields reduced to
the ones this development inspects). -/
structure ErrorResponseItem where
  domain : String
  reason : String
  message : String
deriving DecidableEq, Repr

/-- A well-formed Google Cloud Storage service error response
(`google_cloud_storage::http::error::ErrorResponse`). -/
structure ErrorResponse where
  code : Nat
  message : String
  errors : List ErrorResponseItem
deriving DecidableEq, Repr

/-- The Google Cloud Storage SDK error type
(`google_cloud_storage::http::Error`): `Response` is a parsed service error
response; the other constructors are structural/transport failures
(HTTP-client errors, token-source errors) carrying no parsed service error. -/
inductive GcsError where
  | Response : ErrorResponse → GcsError
  | HttpClient : String → GcsError
  | TokenSource : String → GcsError
deriving DecidableEq, Repr

/-- The per-backend error enum of the Google Cloud adapter
(`google_cloud.rs` lines 20-24). -/
inductive GoogleCloudError where
  | HttpError : GcsError → GoogleCloudError
  | GoogleCloudStorageError : List ErrorResponseItem → GoogleCloudError
  | SignedURLError : String → GoogleCloudError
deriving DecidableEq, Repr

/-- The per-backend error enum of the AWS adapter (`aws_s3.rs` lines 39-54,
generated by `aws_error_enum_and_impls!`): one variant per S3 operation
error type. The SDK error payloads are modelled as their display strings. -/
inductive AWSError where
  | GetObjErr : String → AWSError
  | DelBucErr : String → AWSError
  | DelObjErr : String → AWSError
  | CopObjErr : String → AWSError
  | GetLocErr : String → AWSError
  | CreObjErr : String → AWSError
  | PutObjErr : String → AWSError
  | LstBucErr : String → AWSError
deriving DecidableEq, Repr

/-- The top-level error union (`lib.rs` lines 70-75): one variant per
backend. -/
inductive ClientError where
  | GoogleCloudClient : GoogleCloudError → ClientError
  | AWSClient : AWSError → ClientError
deriving DecidableEq, Repr

end UniStg

namespace UniStg

/-- Outcome of an adapter operation: success (`Ok`), an error returned
through the `Result` error channel (`ReqRes<T> = Result<T, ClientError>`),
or a Rust panic. The panic case is kept distinct from the error case
because the two reach the caller through different mechanisms. -/
inductive RRes (α : Type) where
  | ok : α → RRes α
  | err : ClientError → RRes α
  | panicked : String → RRes α
deriving DecidableEq, Repr

/-- True exactly when the outcome is an error reported through the
`Result` error channel. -/
def RRes.isErr {α : Type} : RRes α → Bool
  | .err _ => true
  | _ => false

/-- True exactly when the outcome is a success. -/
def RRes.isOk {α : Type} : RRes α → Bool
  | .ok _ => true
  | _ => false

/-- The `From<Error> for ClientError` conversion of the Google Cloud adapter
(`google_cloud.rs` lines 35-42): a parsed service error response
(`Error::Response`) becomes `GoogleCloudStorageError` carrying the
response's error items; every other SDK error becomes `HttpError` carrying
the whole SDK error. -/
def gcsErrorToClientError (value : GcsError) : ClientError :=
  ClientError.GoogleCloudClient
    (match value with
      | GcsError.Response e => GoogleCloudError.GoogleCloudStorageError e.errors
      | v => GoogleCloudError.HttpError v)

/-- The AWS adapter's `url_upload_object` (`aws_s3.rs` lines 172-174): AWS
S3 provides no URL for uploading objects, so an empty string is returned
for every input. -/
def AWSClient.url_upload_object (_bucket _object : String) : RRes String :=
  RRes.ok emptyString

end UniStg

namespace UniStg

/-- A structured HTTP `Range` header value, as produced by the four-way
match in `static_download_object` (`aws_s3.rs` lines 150-155): both bounds
present, only a first byte position, or only a suffix length. -/
inductive RangeHeader where
  | fromTo : Nat → Nat → RangeHeader
  | fromStart : Nat → RangeHeader
  | suffix : Nat → RangeHeader
deriving DecidableEq, Repr

/-- Literal separator characters, named so they can be passed as
arguments. -/
def dashStr : String := "-"

/-- The `/` separator of an S3 copy source. -/
def slashStr : String := "/"

/-- A literal double quote (ETags are quoted strings). -/
def quoteStr : String := "\""

/-- The `bytes=` prefix of an HTTP Range header. -/
def bytesEqStr : String := "bytes="

/-- The exact header text the Rust `format!` calls produce for each
structured range value. -/
def RangeHeader.render : RangeHeader → String
  | RangeHeader.fromTo s e => bytesEqStr ++ toString s ++ dashStr ++ toString e
  | RangeHeader.fromStart s => bytesEqStr ++ toString s ++ dashStr
  | RangeHeader.suffix n => bytesEqStr ++ dashStr ++ toString n

/-- The four-way match of `AWSClient::static_download_object`
(`aws_s3.rs` lines 150-155), in structured form: `(Some s, Some e)`
renders `bytes=s-e`, `(Some s, None)` renders `bytes=s-`, `(None, Some e)`
renders `bytes=-e`, `(None, None)` sends no Range header. -/
def awsRangeHeader : Option Nat → Option Nat → Option RangeHeader
  | some s, some e => some (RangeHeader.fromTo s e)
  | some s, none => some (RangeHeader.fromStart s)
  | none, some e => some (RangeHeader.suffix e)
  | none, none => none

/-- The Range header strings actually placed on the request by
`static_download_object` (`format!` at `aws_s3.rs` lines 151-153). -/
def awsRangeString (starting ending : Option Nat) : Option String :=
  (awsRangeHeader starting ending).map RangeHeader.render

/-- Modelled external collaborator: the meaning of a Range header under
RFC 7233 / S3 semantics. `bytes=s-e` is the inclusive window clipped to
the content end (unsatisfiable when `s` is past the end, ignored when
`s > e`); `bytes=s-` runs from `s` to the end; `bytes=-n` is the last `n`
bytes (the whole content when `n` exceeds its length, unsatisfiable when
`n = 0`); no header means the full content. -/
def applyRangeHeader : Option RangeHeader → List Byte → Option (List Byte)
  | none, c => some c
  | some (RangeHeader.fromTo s e), c =>
    if s < c.length then
      (if s ≤ e then some ((c.drop s).take (e - s + 1)) else some c)
    else none
  | some (RangeHeader.fromStart s), c =>
    if s < c.length then some (c.drop s) else none
  | some (RangeHeader.suffix n), c =>
    if n = 0 then none else some (c.drop (c.length - n))

/-- The Rust cast `u32 as i32`: two's-complement reinterpretation. -/
def u32AsI32 (n : Nat) : Int :=
  if n < 2 ^ 31 then (n : Int) else (n : Int) - 2 ^ 32

/-- The Rust cast `i64 as u64`: two's-complement reinterpretation,
i.e. the value modulo `2 ^ 64`. -/
def i64AsU64 (t : Int) : Nat :=
  (t % 2 ^ 64).toNat

end UniStg

namespace UniStg

/-- The S3 `GetObject` request assembled by the fluent builder: the adapter
sets `bucket`, passes the object name to `if_match`, optionally sets
`range`, and never sets the (required) `key` member. -/
structure GetObjectRequest where
  bucket : String
  key : Option String
  ifMatch : Option String
  range : Option RangeHeader
deriving DecidableEq, Repr

/-- The fields of `aws_sdk_s3::operation::get_object::GetObjectOutput`
that the adapter reads. -/
structure GetObjectOutput where
  body : List Byte
  eTag : Option String
  contentLength : Option Int
  contentType : Option String
deriving DecidableEq, Repr

/-- The fields of `aws_sdk_s3::operation::put_object::PutObjectOutput`
that the adapter reads. -/
structure PutObjectOutput where
  eTag : Option String
  size : Option Int
deriving DecidableEq, Repr

/-- The copy result carried inside a `CopyObjectOutput`. -/
structure CopyObjectResult where
  eTag : Option String
deriving DecidableEq, Repr

/-- The fields of `aws_sdk_s3::operation::copy_object::CopyObjectOutput`
that the adapter reads. -/
structure CopyObjectOutput where
  copyObjectResult : Option CopyObjectResult
deriving DecidableEq, Repr

/-- The fields of `aws_sdk_s3::types::Bucket` that the adapter reads. -/
structure S3Bucket where
  name : Option String
  bucketRegion : Option String
deriving DecidableEq, Repr

/-- The fields of the S3 `ListBuckets` response that the adapter reads. -/
structure ListBucketsOutput where
  buckets : Option (List S3Bucket)
deriving DecidableEq, Repr

/-- `AWSBucket` (`aws_s3.rs` lines 56-59). -/
structure AWSBucket where
  bucket_name : String
  location : Option String
deriving DecidableEq, Repr

/-- `AWSBucket::id` (`aws_s3.rs` lines 62-64). -/
def AWSBucket.id (b : AWSBucket) : String := b.bucket_name

/-- `AWSBucket::name` (`aws_s3.rs` lines 66-68). -/
def AWSBucket.name (b : AWSBucket) : String := b.bucket_name

/-- `AWSObject` (`aws_s3.rs` lines 89-92): a `GetObjectOutput` plus the
bucket name the adapter recorded. -/
structure AWSObject where
  object : GetObjectOutput
  bucket : String
deriving DecidableEq, Repr

/-- `AWSObjectPut` (`aws_s3.rs` lines 94-97): a `PutObjectOutput` plus the
bucket name the adapter recorded. -/
structure AWSObjectPut where
  object : PutObjectOutput
  bucket : String
deriving DecidableEq, Repr

/-- `AWSObjectPut::size` (`aws_s3.rs` lines 105-107):
`self.object.size.map(|t| t as u64).unwrap()` — panics when the put
response carries no size. -/
def AWSObjectPut.size (o : AWSObjectPut) : PanicOr Nat :=
  match o.object.size with
  | none => PanicOr.panicked unwrapNoneMsg
  | some t => PanicOr.ok (i64AsU64 t)

/-- `AWSObjectPut::bucket_name` (`aws_s3.rs` lines 109-111). -/
def AWSObjectPut.bucket_name (o : AWSObjectPut) : String := o.bucket

/-- `AWSObjectPut::id` (`aws_s3.rs` lines 113-115):
`self.object.e_tag.clone().unwrap()` — panics when the response has no
ETag. -/
def AWSObjectPut.id (o : AWSObjectPut) : PanicOr String :=
  match o.object.eTag with
  | none => PanicOr.panicked unwrapNoneMsg
  | some t => PanicOr.ok t

/-- `AWSObjectPut::name` (`aws_s3.rs` lines 117-119): `self.id()`. -/
def AWSObjectPut.name (o : AWSObjectPut) : PanicOr String := o.id

/-- `AWSObjectPut::content_type` (`aws_s3.rs` lines 121-123). -/
def AWSObjectPut.content_type (_o : AWSObjectPut) : Option String := none

/-- `AWSObject::size` (`aws_s3.rs` lines 127-129):
`self.object.content_length.map(|t| t as u64).unwrap()`. -/
def AWSObject.size (o : AWSObject) : PanicOr Nat :=
  match o.object.contentLength with
  | none => PanicOr.panicked unwrapNoneMsg
  | some t => PanicOr.ok (i64AsU64 t)

/-- `AWSObject::bucket_name` (`aws_s3.rs` lines 131-133). -/
def AWSObject.bucket_name (o : AWSObject) : String := o.bucket

/-- `AWSObject::id` (`aws_s3.rs` lines 135-137):
`self.object.e_tag.clone().unwrap()`. -/
def AWSObject.id (o : AWSObject) : PanicOr String :=
  match o.object.eTag with
  | none => PanicOr.panicked unwrapNoneMsg
  | some t => PanicOr.ok t

/-- `AWSObject::name` (`aws_s3.rs` lines 139-141): `self.id()`. -/
def AWSObject.name (o : AWSObject) : PanicOr String := o.id

/-- `AWSObject::content_type` (`aws_s3.rs` lines 143-145). -/
def AWSObject.content_type (o : AWSObject) : Option String :=
  o.object.contentType

end UniStg

namespace UniStg

/-- Modelled external collaborator: the remote S3 store — the existing
buckets and a finite map from (bucket, key) to stored bytes. -/
structure S3State where
  buckets : List S3Bucket
  objects : List (String × String × List Byte)
deriving DecidableEq, Repr

/-- First stored payload for (bucket, key), if any. -/
def s3Find (objs : List (String × String × List Byte)) (b k : String) : Option (List Byte) :=
  match objs with
  | [] => none
  | (b2, k2, d) :: rest => if b2 = b ∧ k2 = k then some d else s3Find rest b k

/-- Lookup of a stored object in the S3 store model. -/
def S3State.lookup (st : S3State) (b k : String) : Option (List Byte) :=
  s3Find st.objects b k

/-- Store (or overwrite) an object in the S3 store model. -/
def S3State.insert (st : S3State) (b k : String) (d : List Byte) : S3State :=
  { st with objects := (b, k, d) :: st.objects }

/-- Modelled external collaborator: a deterministic content-derived entity
tag, standing in for the MD5-based ETag S3 computes. It is a non-empty
quoted string, as real S3 ETags are. -/
def etagOf (data : List Byte) : String :=
  quoteStr ++ toString data.length ++ dashStr ++ toString (data.foldl (fun a b => a + b) 0) ++ quoteStr

/-- SDK rejection message for a request built without its required `key`
member (`SdkError::ConstructionFailure`, surfaced through
`into_service_error` as an unhandled error). -/
def keyMissingMsg : String := "ConstructionFailure: missing required field key"

/-- S3 `NoSuchKey` service error message (modelled). -/
def noSuchKeyMsg : String := "NoSuchKey: the specified key does not exist"

/-- S3 `PreconditionFailed` service error message (modelled). -/
def preconditionFailedMsg : String := "PreconditionFailed: If-Match did not match the object ETag"

/-- S3 `InvalidRange` service error message (modelled). -/
def invalidRangeMsg : String := "InvalidRange: the requested range is not satisfiable"

/-- S3 invalid copy source service error message (modelled). -/
def invalidCopySourceMsg : String := "InvalidRequest: copy source must be bucket/key"

/-- S3 invalid `max-buckets` service error message (modelled). -/
def invalidMaxBucketsMsg : String := "InvalidArgument: max buckets must be nonnegative"

/-- The assertion message of `assert_eq!` in `AWSClient::copy_object`
(`aws_s3.rs` line 200). -/
def assertBucketsMsg : String := "assertion failed: Source and destination buckets must be the same on AWS-S3"

/-- Network call labels used to record which service endpoints an
operation actually contacted. -/
def copyObjectCall : String := "CopyObject"

/-- Network call label of the S3 `GetObject` endpoint. -/
def getObjectCall : String := "GetObject"

/-- Modelled external collaborator: the S3 `GetObject` call as mediated by
the SDK. A request without its required `key` member is rejected by the
SDK before any network traffic; otherwise the service looks the key up,
checks the `If-Match` precondition against the object's ETag, and applies
the Range header. -/
def s3GetObject (st : S3State) (req : GetObjectRequest) : Except AWSError GetObjectOutput :=
  match req.key with
  | none => Except.error (AWSError.GetObjErr keyMissingMsg)
  | some k =>
    match st.lookup req.bucket k with
    | none => Except.error (AWSError.GetObjErr noSuchKeyMsg)
    | some data =>
      if req.ifMatch.all (fun tag => tag = etagOf data) then
        match applyRangeHeader req.range data with
        | none => Except.error (AWSError.GetObjErr invalidRangeMsg)
        | some bytes =>
          Except.ok
            { body := bytes
              eTag := some (etagOf data)
              contentLength := some (bytes.length : Int)
              contentType := none }
      else Except.error (AWSError.GetObjErr preconditionFailedMsg)

/-- Modelled external collaborator: the S3 `PutObject` call. The put
response carries the new ETag but no size (S3 `PutObject` responses do not
report the stored length). -/
def s3PutObject (st : S3State) (bucket key : String) (body : List Byte) :
    Except AWSError (PutObjectOutput × S3State) :=
  Except.ok ({ eTag := some (etagOf body), size := none }, st.insert bucket key body)

/-- Modelled external collaborator: the S3 `CopyObject` call. The copy
source must be a `bucket/key` string; the adapter passes the bare source
object name, which parses as a copy source only when it happens to contain
exactly one slash. -/
def s3CopyObject (st : S3State) (bucket key copySource : String) :
    Except AWSError (CopyObjectOutput × S3State) :=
  match copySource.splitOn slashStr with
  | [sb, sk] =>
    match st.lookup sb sk with
    | none => Except.error (AWSError.CopObjErr noSuchKeyMsg)
    | some data =>
      Except.ok ({ copyObjectResult := some { eTag := some (etagOf data) } }, st.insert bucket key data)
  | _ => Except.error (AWSError.CopObjErr invalidCopySourceMsg)

/-- Modelled external collaborator: the S3 `ListBuckets` call. A negative
`max-buckets` (as produced by the `u32 as i32` cast overflowing) is
rejected; otherwise the first page of at most `max-buckets` buckets is
returned, always with the `Buckets` member present. -/
def s3ListBuckets (st : S3State) (maxBuckets : Option Int) : Except AWSError ListBucketsOutput :=
  match maxBuckets with
  | none => Except.ok { buckets := some st.buckets }
  | some m =>
    if m < 0 then Except.error (AWSError.LstBucErr invalidMaxBucketsMsg)
    else Except.ok { buckets := some (st.buckets.take m.toNat) }

end UniStg

namespace UniStg

/-- The `GetObject` request assembled by `AWSClient::static_download_object`
(`aws_s3.rs` line 156): `.bucket(&bucket_name).if_match(object_name)` plus
the optional Range header — the required `key` member is never set. -/
def awsDownloadRequest (bucket object : String) (starting ending : Option Nat) : GetObjectRequest :=
  { bucket := bucket
    key := none
    ifMatch := some object
    range := awsRangeHeader starting ending }

/-- `AWSClient::static_download_object` (`aws_s3.rs` lines 149-162):
builds the Range header from the optional bounds, sends the request and
collects the body. -/
def AWSClient.static_download_object (st : S3State) (bucket_name object_name : String)
    (starting ending : Option Nat) : RRes (List Byte) :=
  match s3GetObject st (awsDownloadRequest bucket_name object_name starting ending) with
  | Except.error e => RRes.err (ClientError.AWSClient e)
  | Except.ok out => RRes.ok out.body

/-- `AWSClient::static_upload_object` (`aws_s3.rs` lines 166-169):
`put_object().bucket(..).key(object_name).body(data)`, wrapping the
response into an `AWSObjectPut`. Returns the outcome together with the
updated store. -/
def AWSClient.static_upload_object (st : S3State) (bucket_name object_name : String)
    (data : List Byte) : RRes AWSObjectPut × S3State :=
  match s3PutObject st bucket_name object_name data with
  | Except.error e => (RRes.err (ClientError.AWSClient e), st)
  | Except.ok (object, st2) => (RRes.ok { object := object, bucket := bucket_name }, st2)

/-- `AWSClient::get_object` (`aws_s3.rs` lines 218-221):
`.bucket(&bucket_name).if_match(object_name)` — again without setting the
required `key` member — wrapping the response into an `AWSObject`. -/
def AWSClient.get_object (st : S3State) (bucket_name object_name : String) : RRes AWSObject :=
  match s3GetObject st { bucket := bucket_name, key := none, ifMatch := some object_name, range := none } with
  | Except.error e => RRes.err (ClientError.AWSClient e)
  | Except.ok object => RRes.ok { object := object, bucket := bucket_name }

/-- `AWSClient::copy_object` (`aws_s3.rs` lines 199-203): first
`assert_eq!(src_bucket, dest_bucket)` — a panic, not an `Err` — then the
network `CopyObject` call with `unwrap` on its `copy_object_result`,
then a `get_object` read-back. The second component records, in order,
which network endpoints were contacted. -/
def AWSClient.copy_object (st : S3State) (src_bucket src_object dest_bucket dest_object : String) :
    RRes AWSObject × List String :=
  if src_bucket = dest_bucket then
    match s3CopyObject st src_bucket dest_object src_object with
    | Except.error e => (RRes.err (ClientError.AWSClient e), [copyObjectCall])
    | Except.ok (out, st2) =>
      match out.copyObjectResult with
      | none => (RRes.panicked unwrapNoneMsg, [copyObjectCall])
      | some _ => (AWSClient.get_object st2 dest_bucket dest_object, [copyObjectCall, getObjectCall])
  else (RRes.panicked assertBucketsMsg, [])

/-- The `From<Bucket> for AWSBucket` conversion (`aws_s3.rs` lines 75-79):
`value.name.clone().unwrap()` — panics when the listed bucket has no
name. -/
def s3BucketToAWSBucket (value : S3Bucket) : PanicOr AWSBucket :=
  match value.name with
  | none => PanicOr.panicked unwrapNoneMsg
  | some n => PanicOr.ok { bucket_name := n, location := value.bucketRegion }

/-- Conversion of a listed bucket collection, propagating the first panic. -/
def s3BucketsToAWSBuckets : List S3Bucket → PanicOr (List AWSBucket)
  | [] => PanicOr.ok []
  | b :: bs =>
    match s3BucketToAWSBucket b with
    | PanicOr.panicked m => PanicOr.panicked m
    | PanicOr.ok a =>
      match s3BucketsToAWSBuckets bs with
      | PanicOr.panicked m => PanicOr.panicked m
      | PanicOr.ok l => PanicOr.ok (a :: l)

/-- `AWSClient::list_buckets` (`aws_s3.rs` lines 205-212): forwards
`max_results` through the `u32 as i32` cast to `max_buckets`, then maps
the response buckets through `From<Bucket>` and unwraps the optional
bucket collection. -/
def AWSClient.list_buckets (st : S3State) (max_results : Option Nat) : RRes (List AWSBucket) :=
  match (match max_results with
         | some n => s3ListBuckets st (some (u32AsI32 n))
         | none => s3ListBuckets st none) with
  | Except.error e => RRes.err (ClientError.AWSClient e)
  | Except.ok resp =>
    match resp.buckets with
    | none => RRes.panicked unwrapNoneMsg
    | some bs =>
      match s3BucketsToAWSBuckets bs with
      | PanicOr.panicked m => RRes.panicked m
      | PanicOr.ok l => RRes.ok l

end UniStg

namespace UniStg

/-- The fields of `google_cloud_storage::http::objects::Object` that the
adapter reads: bucket, name, id, size (an `i64`), content type. -/
structure GcsObject where
  bucket : String
  name : String
  id : String
  size : Int
  contentType : Option String
deriving DecidableEq, Repr

/-- `GoogleCloudObject` (`google_cloud.rs` lines 80-82): a thin wrapper
around the SDK object (this is also the `From<Object>` conversion of
lines 106-110). -/
structure GoogleCloudObject where
  object : GcsObject
deriving DecidableEq, Repr

/-- `GoogleCloudObject::size` (`google_cloud.rs` lines 85-87):
`self.object.size as u64`. -/
def GoogleCloudObject.size (o : GoogleCloudObject) : Nat :=
  i64AsU64 o.object.size

/-- `GoogleCloudObject::bucket_name` (`google_cloud.rs` lines 89-91). -/
def GoogleCloudObject.bucket_name (o : GoogleCloudObject) : String :=
  o.object.bucket

/-- `GoogleCloudObject::id` (`google_cloud.rs` lines 93-95). -/
def GoogleCloudObject.id (o : GoogleCloudObject) : String :=
  o.object.id

/-- `GoogleCloudObject::name` (`google_cloud.rs` lines 97-99). -/
def GoogleCloudObject.name (o : GoogleCloudObject) : String :=
  o.object.name

/-- `GoogleCloudObject::content_type` (`google_cloud.rs` lines 101-103). -/
def GoogleCloudObject.content_type (o : GoogleCloudObject) : Option String :=
  o.object.contentType

/-- The fields of the GCS `ListObjects` response the adapter reads: the
optional `items` collection, which the service omits when no object
matches (an empty bucket yields no `items` member). -/
structure ListObjectsResponse where
  items : Option (List GcsObject)
deriving DecidableEq, Repr

/-- Modelled external collaborator: the remote GCS store — a finite map
from (bucket, key) to stored bytes. -/
structure GcsState where
  objects : List (String × String × List Byte)
deriving DecidableEq, Repr

/-- Lookup of a stored object in the GCS store model. -/
def GcsState.lookup (st : GcsState) (b k : String) : Option (List Byte) :=
  s3Find st.objects b k

/-- Store (or overwrite) an object in the GCS store model. -/
def GcsState.insert (st : GcsState) (b k : String) (d : List Byte) : GcsState :=
  { objects := (b, k, d) :: st.objects }

/-- The keys (with payloads) of the objects a bucket holds, in store
order. -/
def GcsState.objectsIn (st : GcsState) (b : String) : List (String × List Byte) :=
  st.objects.filterMap (fun p => if p.1 = b then some (p.2.1, p.2.2) else none)

/-- Modelled external collaborator: the object metadata GCS reports for a
stored object — the owning bucket, the caller-supplied name, a non-empty
service-assigned id (`bucket/name/generation`), and the byte length. -/
def mkGcsObject (b k : String) (data : List Byte) : GcsObject :=
  { bucket := b
    name := k
    id := b ++ slashStr ++ k ++ slashStr ++ toString data.length
    size := (data.length : Int)
    contentType := none }

/-- GCS `notFound` service error response (modelled). -/
def gcsNotFoundResponse : ErrorResponse :=
  { code := 404
    message := "No such object"
    errors := [{ domain := "global", reason := "notFound", message := "No such object" }] }

/-- GCS `requestedRangeNotSatisfiable` service error response (modelled). -/
def gcsBadRangeResponse : ErrorResponse :=
  { code := 416
    message := "Request range not satisfiable"
    errors := [{ domain := "global", reason := "requestedRangeNotSatisfiable", message := "Request range not satisfiable" }] }

/-- GCS `invalid` argument service error response (modelled), returned for
a negative `maxResults`. -/
def gcsInvalidArgumentResponse : ErrorResponse :=
  { code := 400
    message := "Invalid argument"
    errors := [{ domain := "global", reason := "invalid", message := "Invalid argument" }] }

/-- Modelled external collaborator: the SDK `Range(Option<u64>, Option<u64>)`
header construction of `google-cloud-storage` — the same four-way encoding
as the AWS adapter's `format!` calls: both bounds give `bytes=s-e`, only a
start gives `bytes=s-`, only an end gives `bytes=-e`, neither sends no
header. -/
def gcsRangeHeader : Option Nat → Option Nat → Option RangeHeader
  | some s, some e => some (RangeHeader.fromTo s e)
  | some s, none => some (RangeHeader.fromStart s)
  | none, some e => some (RangeHeader.suffix e)
  | none, none => none

/-- Modelled external collaborator: the GCS object download call — looks
the object up and applies the Range header under the shared RFC 7233
semantics. -/
def gcsDownloadService (st : GcsState) (b k : String) (starting ending : Option Nat) :
    Except GcsError (List Byte) :=
  match st.lookup b k with
  | none => Except.error (GcsError.Response gcsNotFoundResponse)
  | some data =>
    match applyRangeHeader (gcsRangeHeader starting ending) data with
    | none => Except.error (GcsError.Response gcsBadRangeResponse)
    | some bytes => Except.ok bytes

/-- Modelled external collaborator: the GCS object upload call — stores
the payload and echoes the object metadata. -/
def gcsUploadService (st : GcsState) (b k : String) (data : List Byte) :
    Except GcsError (GcsObject × GcsState) :=
  Except.ok (mkGcsObject b k data, st.insert b k data)

/-- Modelled external collaborator: the GCS object metadata lookup. -/
def gcsGetObjectService (st : GcsState) (b k : String) : Except GcsError GcsObject :=
  match st.lookup b k with
  | none => Except.error (GcsError.Response gcsNotFoundResponse)
  | some data => Except.ok (mkGcsObject b k data)

/-- Modelled external collaborator: the GCS object listing call. A
negative `maxResults` (from the overflowing `u32 as i32` cast) is
rejected; otherwise the first page is returned, and the `items` member is
omitted when that page is empty — GCS leaves `items` out of the JSON
response for an empty listing. -/
def gcsListObjectsService (st : GcsState) (bucket : String) (maxResults : Option Int) :
    Except GcsError ListObjectsResponse :=
  match maxResults with
  | some m =>
    if m < 0 then Except.error (GcsError.Response gcsInvalidArgumentResponse)
    else
      Except.ok { items := gcsItems (((st.objectsIn bucket).map (fun p => mkGcsObject bucket p.1 p.2)).take m.toNat) }
  | none => Except.ok { items := gcsItems ((st.objectsIn bucket).map (fun p => mkGcsObject bucket p.1 p.2)) }
where
  /-- An empty page is reported as an absent `items` member. -/
  gcsItems (l : List GcsObject) : Option (List GcsObject) :=
    if l.isEmpty then none else some l

/-- `GoogleCloud::static_download_object` (`google_cloud.rs` lines
150-157): forwards bucket, object and `Range(starting, ending)` to the SDK
download call. -/
def GoogleCloud.static_download_object (st : GcsState) (bucket object : String)
    (starting ending : Option Nat) : RRes (List Byte) :=
  match gcsDownloadService st bucket object starting ending with
  | Except.error e => RRes.err (gcsErrorToClientError e)
  | Except.ok bytes => RRes.ok bytes

/-- `GoogleCloud::static_upload_object` (`google_cloud.rs` lines 159-166):
a simple upload of the payload under the object name, wrapping the
response through `From<Object>`. -/
def GoogleCloud.static_upload_object (st : GcsState) (bucket object : String)
    (data : List Byte) : RRes GoogleCloudObject × GcsState :=
  match gcsUploadService st bucket object data with
  | Except.error e => (RRes.err (gcsErrorToClientError e), st)
  | Except.ok (o, st2) => (RRes.ok { object := o }, st2)

/-- `GoogleCloud::get_object` (`google_cloud.rs` lines 230-237): a point
lookup wrapped through `From<Object>`. -/
def GoogleCloud.get_object (st : GcsState) (bucket_name object_name : String) :
    RRes GoogleCloudObject :=
  match gcsGetObjectService st bucket_name object_name with
  | Except.error e => RRes.err (gcsErrorToClientError e)
  | Except.ok o => RRes.ok { object := o }

/-- `GoogleCloud::list_objects` (`google_cloud.rs` lines 239-246):
forwards `max_results` through the `u32 as i32` cast, then
`.items.unwrap()` — a panic whenever the response omits `items` — and
maps the items through `From<Object>`. -/
def GoogleCloud.list_objects (st : GcsState) (bucket : String) (max_results : Option Nat) :
    RRes (List GoogleCloudObject) :=
  match gcsListObjectsService st bucket (max_results.map u32AsI32) with
  | Except.error e => RRes.err (gcsErrorToClientError e)
  | Except.ok resp =>
    match resp.items with
    | none => RRes.panicked unwrapNoneMsg
    | some l => RRes.ok (l.map (fun x => { object := x }))

end UniStg

namespace UniStg

/-- Fixture bucket name. -/
def bStr : String := "b"

/-- Fixture object key. -/
def kStr : String := "k"

/-- Fixture source bucket name for the copy claims. -/
def aStr : String := "a"

/-- Fixture source object name. -/
def xStr : String := "x"

/-- Fixture destination object name. -/
def yStr : String := "y"

/-- Fixture bucket name for the Google listing claims. -/
def gStr : String := "g"

/-- Fixture region string. -/
def rStr : String := "r"

/-- Fixture transport-error text. -/
def timeoutStr : String := "connection timed out"

/-- Fixture payload. -/
def payload123 : List Byte := [1, 2, 3]

/-- Fixture 10-byte content for the range claims. -/
def content10 : List Byte := [0, 1, 2, 3, 4, 5, 6, 7, 8, 9]

/-- The empty S3 store. -/
def st0 : S3State := { buckets := [], objects := [] }

/-- An S3 store already holding the fixture object. -/
def st1 : S3State :=
  { buckets := [{ name := some bStr, bucketRegion := some rStr }]
    objects := [(bStr, kStr, payload123)] }

/-- An S3 store with three named buckets. -/
def stB : S3State :=
  { buckets :=
      [{ name := some aStr, bucketRegion := some rStr },
       { name := some bStr, bucketRegion := some rStr },
       { name := some gStr, bucketRegion := some rStr }]
    objects := [] }

/-- The empty GCS store. -/
def gstEmpty : GcsState := { objects := [] }

/-- A GCS store already holding the fixture object. -/
def gst1 : GcsState := { objects := [(bStr, kStr, payload123)] }

/-- A GCS store with three objects in one bucket. -/
def gst3 : GcsState :=
  { objects := [(gStr, kStr, payload123), (gStr, xStr, payload123), (gStr, yStr, payload123)] }

/-- A GCS store holding the 10-byte fixture content. -/
def gstC : GcsState := { objects := [(bStr, kStr, content10)] }

/-- The `AWSObjectPut` the upload adapter produces for the fixture
payload. -/
def awsPutObjC : AWSObjectPut :=
  { object := { eTag := some (etagOf payload123), size := none }, bucket := bStr }

/-- The `GoogleCloudObject` the Google point lookup produces for the
fixture object. -/
def gObjC : GoogleCloudObject := { object := mkGcsObject bStr kStr payload123 }

/-- The first page of buckets the AWS listing maps for `stB` with
`max_results = 2`. -/
def awsPage : List AWSBucket :=
  [{ bucket_name := aStr, location := some rStr },
   { bucket_name := bStr, location := some rStr }]

/-- The first page of objects the Google listing maps for `gst3` with
`max_results = 2`. -/
def gcsPage : List GoogleCloudObject :=
  [{ object := mkGcsObject gStr kStr payload123 },
   { object := mkGcsObject gStr xStr payload123 }]

end UniStg

namespace UniStg

/-- C2: for every bucket and object argument, `url_upload_object` on the
AWS backend returns `Ok` of the empty string — never an error and never a
non-empty URL. -/
theorem C2_url_upload_object_empty (bucket object : String) :
    AWSClient.url_upload_object bucket object = RRes.ok emptyString ∧
      (AWSClient.url_upload_object bucket object).isErr = false :=
  ⟨rfl, rfl⟩

/-- C8: the Google Cloud error conversion maps every parsed service error
response (`Error::Response`) to the `GoogleCloudStorageError` variant
carrying the service's error items, maps every other SDK error to the
distinct `HttpError` variant, and the two variants never coincide. -/
theorem C8_error_distinction (e : GcsError) (items : List ErrorResponseItem)
    (resp : ErrorResponse) (h : ∀ r, e ≠ GcsError.Response r) :
    gcsErrorToClientError (GcsError.Response resp)
        = ClientError.GoogleCloudClient (GoogleCloudError.GoogleCloudStorageError resp.errors)
      ∧ gcsErrorToClientError e = ClientError.GoogleCloudClient (GoogleCloudError.HttpError e)
      ∧ GoogleCloudError.GoogleCloudStorageError items ≠ GoogleCloudError.HttpError e := by
  refine ⟨rfl, ?_, by simp⟩
  cases e with
  | Response r => exact absurd rfl (h r)
  | HttpClient s => rfl
  | TokenSource s => rfl

/-- Witness for C8: a not-found service response keeps its error items, a
transport failure lands in `HttpError`, and the two variants differ. -/
theorem C8_witness :
    gcsErrorToClientError (GcsError.Response gcsNotFoundResponse)
        = ClientError.GoogleCloudClient
            (GoogleCloudError.GoogleCloudStorageError gcsNotFoundResponse.errors)
      ∧ gcsErrorToClientError (GcsError.HttpClient timeoutStr)
          = ClientError.GoogleCloudClient (GoogleCloudError.HttpError (GcsError.HttpClient timeoutStr))
      ∧ GoogleCloudError.GoogleCloudStorageError []
          ≠ GoogleCloudError.HttpError (GcsError.HttpClient timeoutStr) :=
  C8_error_distinction (GcsError.HttpClient timeoutStr) [] gcsNotFoundResponse
    (fun _ hr => nomatch hr)

end UniStg

namespace UniStg

/-- C1 counterexample: a cross-bucket copy on the AWS backend does fail
deterministically before any network call, but as an `assert_eq!` panic —
it is NOT reported through the `Result` error channel as the claim
states. -/
theorem C1_cross_bucket_not_error_channel :
    AWSClient.copy_object st0 aStr xStr bStr yStr = (RRes.panicked assertBucketsMsg, [])
      ∧ (AWSClient.copy_object st0 aStr xStr bStr yStr).1.isErr = false := by
  constructor <;> rfl

/-- C1 amended: every cross-bucket `copy_object` request on the AWS
backend fails deterministically before any network call is attempted (the
recorded endpoint trace is empty), with the descriptive assertion message
— as a panic, not through the `Result` error channel. -/
theorem C1_cross_bucket_panics_before_network (st : S3State)
    (src_bucket src_object dest_bucket dest_object : String)
    (h : src_bucket ≠ dest_bucket) :
    AWSClient.copy_object st src_bucket src_object dest_bucket dest_object
      = (RRes.panicked assertBucketsMsg, []) := by
  simp [AWSClient.copy_object, h]

/-- Witness for the amended C1, at concrete distinct buckets. -/
theorem C1_witness :
    AWSClient.copy_object st0 aStr xStr bStr yStr = (RRes.panicked assertBucketsMsg, []) :=
  C1_cross_bucket_panics_before_network st0 aStr xStr bStr yStr (by decide)

/-- C3 (evidence for the code bug): uploading the fixture payload to
`(b, k)` succeeds, but the subsequent full download fails instead of
returning the payload — `static_download_object` passes the object name
to `if_match` and never sets the required `key` member of the `GetObject`
request, so the download cannot target `(b, k)`. -/
theorem C3_aws_roundtrip_fails :
    (AWSClient.static_upload_object st0 bStr kStr payload123).1 = RRes.ok awsPutObjC
      ∧ AWSClient.static_download_object
          (AWSClient.static_upload_object st0 bStr kStr payload123).2 bStr kStr none none
          = RRes.err (ClientError.AWSClient (AWSError.GetObjErr keyMissingMsg))
      ∧ (awsDownloadRequest bStr kStr none none).key = none
      ∧ (awsDownloadRequest bStr kStr none none).ifMatch = some kStr := by
  refine ⟨rfl, rfl, rfl, rfl⟩

/-- C5 (evidence for the code bug): the fixture object exists in the
store, yet `get_object` fails — it passes the object name to `if_match`
and never sets the required `key` member, so the point lookup cannot
succeed for any existing pair. -/
theorem C5_aws_get_object_fails :
    st1.lookup bStr kStr = some payload123
      ∧ AWSClient.get_object st1 bStr kStr
          = RRes.err (ClientError.AWSClient (AWSError.GetObjErr keyMissingMsg)) := by
  constructor <;> rfl

/-- C6 counterexample: the object returned by the AWS upload of the
fixture payload under key `k` reports as `name()` the backend ETag, which
differs from the caller-supplied key. -/
theorem C6_aws_name_is_etag :
    (AWSClient.static_upload_object st0 bStr kStr payload123).1 = RRes.ok awsPutObjC
      ∧ AWSObjectPut.name awsPutObjC = PanicOr.ok (etagOf payload123)
      ∧ etagOf payload123 ≠ kStr := by
  refine ⟨rfl, rfl, by decide⟩

/-- C6 amended: on the Google Cloud backend an object's `name` is the
caller-supplied key (both structurally and through `get_object`), while on
the AWS backend `name()` returns the same value as `id()` — the backend
ETag — for both get-result and put-result objects. -/
theorem C6_name_semantics (gst : GcsState) (b k : String) (o : GoogleCloudObject)
    (h : GoogleCloud.get_object gst b k = RRes.ok o) :
    (∀ p : AWSObjectPut, p.name = p.id)
      ∧ (∀ a : AWSObject, a.name = a.id)
      ∧ (∀ g : GcsObject, GoogleCloudObject.name { object := g } = g.name)
      ∧ o.name = k := by
  refine ⟨fun p => rfl, fun a => rfl, fun g => rfl, ?_⟩
  unfold GoogleCloud.get_object gcsGetObjectService at h
  cases hl : gst.lookup b k with
  | none => rw [hl] at h; exact absurd h (by simp)
  | some data =>
    rw [hl] at h
    cases h
    rfl

/-- Witness for the amended C6 at the fixture store. -/
theorem C6_witness :
    (∀ p : AWSObjectPut, p.name = p.id)
      ∧ (∀ a : AWSObject, a.name = a.id)
      ∧ (∀ g : GcsObject, GoogleCloudObject.name { object := g } = g.name)
      ∧ gObjC.name = kStr :=
  C6_name_semantics gst1 bStr kStr gObjC rfl

/-- C9: every object returned by the AWS `static_upload_object` whose
underlying put response carries no size panics on `size()` (an `unwrap`
of `None`) instead of reporting an absent or default value. -/
theorem C9_put_size_panics (st : S3State) (b k : String) (data : List Byte)
    (obj : AWSObjectPut)
    (_h1 : (AWSClient.static_upload_object st b k data).1 = RRes.ok obj)
    (h2 : obj.object.size = none) :
    AWSObjectPut.size obj = PanicOr.panicked unwrapNoneMsg := by
  unfold AWSObjectPut.size
  rw [h2]

/-- Witness for C9 at the fixture upload. -/
theorem C9_witness :
    AWSObjectPut.size awsPutObjC = PanicOr.panicked unwrapNoneMsg :=
  C9_put_size_panics st0 bStr kStr payload123 awsPutObjC rfl rfl

/-- C10: whenever the provider's listing response omits the `items`
member (as it does for an empty bucket), the Google Cloud `list_objects`
panics (an `unwrap` of `None`) instead of returning an empty list or an
error. -/
theorem C10_list_objects_panics_on_missing_items (gst : GcsState) (bucket : String)
    (max_results : Option Nat) (resp : ListObjectsResponse)
    (h1 : gcsListObjectsService gst bucket (max_results.map u32AsI32) = Except.ok resp)
    (h2 : resp.items = none) :
    GoogleCloud.list_objects gst bucket max_results = RRes.panicked unwrapNoneMsg := by
  unfold GoogleCloud.list_objects
  rw [h1]
  cases resp with
  | mk items =>
    simp only at h2
    rw [h2]

/-- Witness for C10 at an empty bucket. -/
theorem C10_witness :
    GoogleCloud.list_objects gstEmpty bStr none = RRes.panicked unwrapNoneMsg :=
  C10_list_objects_panics_on_missing_items gstEmpty bStr none { items := none } rfl rfl

end UniStg

namespace UniStg

/-- Converting a listed bucket collection preserves its length whenever it
succeeds. -/
theorem s3BucketsToAWSBuckets_length (bs : List S3Bucket) (l : List AWSBucket)
    (h : s3BucketsToAWSBuckets bs = PanicOr.ok l) : l.length = bs.length := by
  induction bs generalizing l with
  | nil =>
    unfold s3BucketsToAWSBuckets at h
    cases h
    rfl
  | cons b bs ih =>
    unfold s3BucketsToAWSBuckets at h
    cases hb : s3BucketToAWSBucket b with
    | panicked m => rw [hb] at h; exact absurd h (by simp)
    | ok a =>
      rw [hb] at h
      cases hr : s3BucketsToAWSBuckets bs with
      | panicked m => rw [hr] at h; exact absurd h (by simp)
      | ok l2 =>
        rw [hr] at h
        cases h
        simp [ih l2 hr]

/-- The `u32 as i32` cast never exceeds the original value after the
return trip to `Nat`. -/
theorem u32AsI32_toNat_le (n : Nat) : (u32AsI32 n).toNat ≤ n := by
  unfold u32AsI32
  split <;> omega

/-- C4: `static_download_object` treats its optional bounds as an HTTP
Range header: both bounds give the inclusive window (exactly
`end - start + 1` bytes when `start ≤ end` lies within the object), only a
start reads from `start` to the object's end, only an end reads the last
`n` bytes (the suffix convention), and no bounds read the full object —
shown end-to-end on the Google backend, with the AWS adapter placing the
identical header (the same four-way encoding) on its request. -/
theorem C4_range_semantics (gst : GcsState) (b k : String) (c : List Byte)
    (s e s2 n : Nat) (hobj : gst.lookup b k = some c)
    (h1 : s ≤ e) (h2 : e < c.length) (h3 : s2 < c.length) (h4 : 0 < n) :
    (GoogleCloud.static_download_object gst b k (some s) (some e)
        = RRes.ok ((c.drop s).take (e - s + 1))
      ∧ ((c.drop s).take (e - s + 1)).length = e - s + 1)
      ∧ GoogleCloud.static_download_object gst b k (some s2) none = RRes.ok (c.drop s2)
      ∧ GoogleCloud.static_download_object gst b k none (some n)
          = RRes.ok (c.drop (c.length - n))
      ∧ GoogleCloud.static_download_object gst b k none none = RRes.ok c
      ∧ awsRangeHeader (some s) (some e) = gcsRangeHeader (some s) (some e)
      ∧ awsRangeHeader (some s2) none = gcsRangeHeader (some s2) none
      ∧ awsRangeHeader none (some n) = gcsRangeHeader none (some n)
      ∧ awsRangeHeader none none = gcsRangeHeader none none := by
  have hs : s < c.length := by omega
  refine ⟨⟨?_, ?_⟩, ?_, ?_, ?_, rfl, rfl, rfl, rfl⟩
  · simp only [GoogleCloud.static_download_object, gcsDownloadService, hobj, gcsRangeHeader,
      applyRangeHeader, if_pos hs, if_pos h1]
  · simp only [List.length_take, List.length_drop]
    omega
  · simp only [GoogleCloud.static_download_object, gcsDownloadService, hobj, gcsRangeHeader,
      applyRangeHeader, if_pos h3]
  · have hn : ¬ n = 0 := by omega
    simp only [GoogleCloud.static_download_object, gcsDownloadService, hobj, gcsRangeHeader,
      applyRangeHeader, if_neg hn]
  · simp only [GoogleCloud.static_download_object, gcsDownloadService, hobj, gcsRangeHeader,
      applyRangeHeader]

/-- Witness for C4 on a 10-byte fixture: range (2, 5) returns the 4 bytes
2..5, start-only 7 returns the tail, end-only 3 returns the last 3 bytes,
and no bounds return the whole content. -/
theorem C4_witness :
    (GoogleCloud.static_download_object gstC bStr kStr (some 2) (some 5)
        = RRes.ok ((content10.drop 2).take 4)
      ∧ ((content10.drop 2).take 4).length = 4)
      ∧ GoogleCloud.static_download_object gstC bStr kStr (some 7) none
          = RRes.ok (content10.drop 7)
      ∧ GoogleCloud.static_download_object gstC bStr kStr none (some 3)
          = RRes.ok (content10.drop (content10.length - 3))
      ∧ GoogleCloud.static_download_object gstC bStr kStr none none = RRes.ok content10
      ∧ awsRangeHeader (some 2) (some 5) = gcsRangeHeader (some 2) (some 5)
      ∧ awsRangeHeader (some 7) none = gcsRangeHeader (some 7) none
      ∧ awsRangeHeader none (some 3) = gcsRangeHeader none (some 3)
      ∧ awsRangeHeader none none = gcsRangeHeader none none :=
  C4_range_semantics gstC bStr kStr content10 2 5 7 3 rfl (by decide) (by decide)
    (by decide) (by decide)

/-- C7: listing with `max_results = N` returns at most `N` entries — shown
for `list_buckets` on the AWS backend and `list_objects` on the Google
backend, for every store contents and every successful outcome. -/
theorem C7_max_results_bounds_page (st : S3State) (gst : GcsState) (bucket : String)
    (n : Nat) (l1 : List AWSBucket) (l2 : List GoogleCloudObject)
    (h1 : AWSClient.list_buckets st (some n) = RRes.ok l1)
    (h2 : GoogleCloud.list_objects gst bucket (some n) = RRes.ok l2) :
    l1.length ≤ n ∧ l2.length ≤ n := by
  constructor
  · simp only [AWSClient.list_buckets, s3ListBuckets] at h1
    by_cases hm : u32AsI32 n < 0
    · rw [if_pos hm] at h1
      exact absurd h1 (by simp)
    · rw [if_neg hm] at h1
      dsimp only at h1
      cases hb : s3BucketsToAWSBuckets (st.buckets.take (u32AsI32 n).toNat) with
      | panicked m => rw [hb] at h1; exact absurd h1 (by simp)
      | ok l =>
        rw [hb] at h1
        injection h1 with hl
        have hlen : l1.length = (st.buckets.take (u32AsI32 n).toNat).length := by
          rw [← hl]
          exact s3BucketsToAWSBuckets_length _ _ hb
        rw [hlen]
        refine le_trans ?_ (u32AsI32_toNat_le n)
        simp only [List.length_take]
        exact min_le_left _ _
  · simp only [GoogleCloud.list_objects, gcsListObjectsService, Option.map] at h2
    by_cases hm : u32AsI32 n < 0
    · rw [if_pos hm] at h2
      exact absurd h2 (by simp)
    · rw [if_neg hm] at h2
      dsimp only at h2
      set page := ((gst.objectsIn bucket).map (fun p => mkGcsObject bucket p.1 p.2)).take
        (u32AsI32 n).toNat with hpage
      by_cases he : page.isEmpty
      · simp only [gcsListObjectsService.gcsItems, if_pos he] at h2
        exact absurd h2 (by simp)
      · simp only [gcsListObjectsService.gcsItems, if_neg he] at h2
        injection h2 with hl
        have hlen : l2.length = page.length := by
          rw [← hl]
          simp
        rw [hlen]
        refine le_trans ?_ (u32AsI32_toNat_le n)
        rw [hpage]
        simp only [List.length_take]
        exact min_le_left _ _

/-- Witness for C7: stores with three buckets / three objects, listed with
`max_results = 2`, give pages of two entries. -/
theorem C7_witness : awsPage.length ≤ 2 ∧ gcsPage.length ≤ 2 :=
  C7_max_results_bounds_page stB gst3 gStr 2 awsPage gcsPage (by decide) (by decide)

end UniStg
